import Mathlib

/-!
Verification of the buddyback server's device/session subsystem.

Shallow embedding of the Python source (Django REST views, the Channels
websocket consumer `DeviceConsumer`, and the posture-data serializers) as
pure Lean functions over explicit state.  Timestamps are modelled as `Int`
(epoch seconds); database rows become records in Lean lists, kept in table
order, so Django's `filter(...).first()` becomes `List.find?` and an
`order_by("-timestamp").first()` becomes the maximum timestamp.

Note on fields absent from `devices/models.py` as shipped: the views,
serializers and consumer use `Device.audio_intensity`, `Device.last_seen`
and `Session.is_idle`, which the checked-in `models.py` does not declare
(they come from later migrations).  They are modelled here as plain record
fields, with defaults taken from the spec (`is_idle = false` on creation).
-/

namespace BuddyBack

/-- A row of the `Session` table for one device: `start_time` set at
creation, `end_time` null while the session is active, `is_idle` the
idle flag used by the session views. -/
structure SessionRec where
  start_time : Int
  end_time : Option Int
  is_idle : Bool
  deriving Repr, DecidableEq

/-- `end_time IS NULL` — the session is still running. -/
def SessionRec.isActive (s : SessionRec) : Bool :=
  s.end_time.isNone

/-- The sessions of one device, in table order.  Every query in the source
filters by the device first, so a per-device list is a faithful model. -/
abbrev SessionTable := List SessionRec

/-- `Session.objects.filter(device=..., end_time__isnull=True).first()`. -/
def findActive (tbl : SessionTable) : Option SessionRec :=
  tbl.find? SessionRec.isActive

/-- `Session.objects.filter(device=..., end_time__isnull=True).exists()`. -/
def hasActiveSession (tbl : SessionTable) : Bool :=
  (findActive tbl).isSome

/-- Apply `f` to the first active session of the table, leaving every
other row unchanged; models `filter(end_time__isnull=True).first()`
followed by a field update and `save()`. -/
def mapFirstActive (f : SessionRec → SessionRec) : SessionTable → SessionTable
  | [] => []
  | s :: rest =>
      if s.isActive then f s :: rest else s :: mapFirstActive f rest

/-- `SessionStartView.put` (src/devices/views/session_views.py): if an
active session exists, answer "Session already active" and change nothing;
otherwise `Session.objects.create(device=device)` appends a fresh row with
`end_time = null`.  The `Bool` is `true` when a new session was created. -/
def sessionStart (now : Int) (tbl : SessionTable) : SessionTable × Bool :=
  match findActive tbl with
  | some _ => (tbl, false)
  | none => (tbl ++ [{ start_time := now, end_time := none, is_idle := false }], true)

/-- `SessionStopView.put`: if no active session, answer "No active
session"; otherwise set `end_time = now`, `is_idle = false` on it.  The
`Bool` is `true` when a session was stopped. -/
def sessionStop (now : Int) (tbl : SessionTable) : SessionTable × Bool :=
  match findActive tbl with
  | some _ => (mapFirstActive (fun s => { s with end_time := some now, is_idle := false }) tbl, true)
  | none => (tbl, false)

/-- `DeviceConsumer.stop_active_session` (disconnect path): set
`end_time = now` on the first active session, returning whether one was
found. -/
def stop_active_session (now : Int) (tbl : SessionTable) : SessionTable × Bool :=
  match findActive tbl with
  | some _ => (mapFirstActive (fun s => { s with end_time := some now }) tbl, true)
  | none => (tbl, false)

/-- `posture_readings.order_by("-timestamp").first()`: the timestamp of
the most recent reading, `none` when the device has no readings. -/
def lastReadingTimestamp : List Int → Option Int
  | [] => none
  | t :: ts =>
      some (match lastReadingTimestamp ts with
            | none => t
            | some m => max t m)

/-- `DeviceConsumer.stop_session_if_no_data_received_for_too_long`,
verbatim from the source: with an active session, compute
`time_threshold = now - 60*60`; if a last reading exists AND its timestamp
is GREATER than the threshold, set `end_time = now` and return `true`;
otherwise return `false`.  (`readingTimes` are the timestamps of all of the
device's posture readings.) -/
def stop_session_if_no_data_received_for_too_long (now : Int) (readingTimes : List Int)
    (tbl : SessionTable) : SessionTable × Bool :=
  match findActive tbl with
  | some _ =>
      let time_threshold := now - 60 * 60
      match lastReadingTimestamp readingTimes with
      | some last =>
          if last > time_threshold then
            (mapFirstActive (fun s => { s with end_time := some now }) tbl, true)
          else (tbl, false)
      | none => (tbl, false)
  | none => (tbl, false)

/-- The session operations of claim C1, as one step type: REST start, REST
stop, the heartbeat-triggered staleness stop (with the device's reading
timestamps at that moment), and the disconnect-triggered stop. -/
inductive SessionOp where
  | start (now : Int)
  | stop (now : Int)
  | heartbeatStop (now : Int) (readingTimes : List Int)
  | disconnectStop (now : Int)
  deriving Repr

/-- Apply one session operation to the device's session table. -/
def applyOp (op : SessionOp) (tbl : SessionTable) : SessionTable :=
  match op with
  | .start now => (sessionStart now tbl).1
  | .stop now => (sessionStop now tbl).1
  | .heartbeatStop now rts => (stop_session_if_no_data_received_for_too_long now rts tbl).1
  | .disconnectStop now => (stop_active_session now tbl).1

/-- Apply a sequence of session operations, first element first. -/
def applyOps (ops : List SessionOp) (tbl : SessionTable) : SessionTable :=
  ops.foldl (fun t op => applyOp op t) tbl

/-- Number of rows with `end_time = null`. -/
def activeCount (tbl : SessionTable) : Nat :=
  (tbl.filter SessionRec.isActive).length

/-- The single-active-session invariant: at most one `end_time = null` row. -/
def atMostOneActive (tbl : SessionTable) : Prop :=
  activeCount tbl ≤ 1

instance : DecidablePred atMostOneActive := fun tbl =>
  inferInstanceAs (Decidable (activeCount tbl ≤ 1))

/-! ## Posture readings: serializer validation and creation
    (src/posture/serializers/device_posture_data_serializers.py and
    src/posture/models.py) -/

/-- One entry of the submitted `components` list, with the fields of
`PostureComponentSerializer`: `component_type`, `is_correct`, `score`,
`correction`. -/
structure ComponentData where
  component_type : String
  is_correct : Bool
  score : Int
  correction : Option String
  deriving Repr, DecidableEq

/-- `PostureComponent.COMPONENT_TYPES` — the closed choice list. -/
def componentTypeChoices : List String := ["neck", "torso", "shoulders"]

/-- DRF field-level validation from the `PostureComponent` model:
`component_type` must be one of the declared choices and `score` carries
`MinValueValidator(0)`. -/
def componentFieldValid (c : ComponentData) : Bool :=
  componentTypeChoices.contains c.component_type && decide (0 ≤ c.score)

/-- `PostureReadingSerializer.validate_components`: at least one
component, no duplicate types (`len(types) != len(set(types))`), and no
missing required type (`set(required) - set(types)` empty). -/
def validate_components (cs : List ComponentData) : Bool :=
  let types := cs.map ComponentData.component_type
  !cs.isEmpty
    && types.dedup.length == types.length
    && componentTypeChoices.all (fun t => types.contains t)

/-- `serializer.is_valid()`: every component passes field validation and
the list passes `validate_components`. -/
def serializerIsValid (cs : List ComponentData) : Bool :=
  cs.all componentFieldValid && validate_components cs

/-- `PostureReadingSerializer.create`: the reading is created with
`overall_score = 0`, components are saved accumulating `total_score`, and
when `component_count > 0` the score becomes
`total_score // component_count` (Python floor division). -/
def createOverallScore (cs : List ComponentData) : Int :=
  let total_score := (cs.map ComponentData.score).sum
  let component_count := cs.length
  if component_count > 0 then Int.fdiv total_score (Int.ofNat component_count) else 0

/-- The score of the first submitted component of the given type, 0 when
absent (only used on validated submissions, where each type occurs
exactly once). -/
def scoreOf (cs : List ComponentData) (ty : String) : Int :=
  match cs.find? (fun c => c.component_type == ty) with
  | some c => c.score
  | none => 0

/-- A persisted `PostureReading` row with its components. -/
structure ReadingRec where
  timestamp : Int
  overall_score : Int
  components : List ComponentData
  deriving Repr, DecidableEq

/-! ## The consumer's state and message handling
    (src/devices/consumers.py) -/

/-- The device row fields the consumer reads and writes. -/
structure DeviceData where
  sensitivity : Int
  vibration_intensity : Int
  audio_intensity : Int
  last_seen : Option Int
  deriving Repr, DecidableEq

/-- The store as one authenticated consumer sees it: its device row, the
device's sessions and the device's posture readings. -/
structure ConsumerState where
  device : DeviceData
  sessions : SessionTable
  readings : List ReadingRec
  deriving Repr, DecidableEq

/-- `DeviceConsumer.update_last_seen`. -/
def update_last_seen (now : Int) (st : ConsumerState) : ConsumerState :=
  { st with device := { st.device with last_seen := some now } }

/-- A value of the settings dict: the three intensities are ints, the
session flag a bool. -/
inductive SettingVal where
  | int (i : Int)
  | bool (b : Bool)
  deriving Repr, DecidableEq

/-- `DeviceConsumer.get_device_settings`: updates `last_seen`, queries
for an active session, and builds the settings dict with exactly the keys
written in the source.  Returns the dict as an ordered key/value list
together with the state after the `last_seen` write. -/
def get_device_settings (now : Int) (st : ConsumerState) :
    ConsumerState × List (String × SettingVal) :=
  let st := update_last_seen now st
  let has_active_session := hasActiveSession st.sessions
  (st,
    [("sensitivity", .int st.device.sensitivity),
     ("vibration_intensity", .int st.device.vibration_intensity),
     ("audio_intensity", .int st.device.audio_intensity),
     ("has_active_session", .bool has_active_session)])

/-- The error payload of a `posture_data_response`: the literal
"Device must have an active session to submit posture data" message, or
the serializer's `errors` dict (whose rendering no claim depends on). -/
inductive SubmitError where
  | mustHaveActiveSession
  | serializerErrors
  deriving Repr, DecidableEq

/-- The outbound frames `DeviceConsumer` sends over the socket. -/
inductive Frame where
  | settings (data : List (String × SettingVal))
  | sessionStatus (action : String) (has_active_session : Bool)
  | postureDataResponse (status : String) (error : Option SubmitError)
  | errorFrame (error : String)
  deriving Repr, DecidableEq

/-- `DeviceConsumer.send_device_settings`: fetch the settings and wrap
them in a `{"type": "settings", "data": ...}` frame. -/
def send_device_settings (now : Int) (st : ConsumerState) : ConsumerState × Frame :=
  let (st, settings) := get_device_settings now st
  (st, .settings settings)

/-- `DeviceConsumer.process_posture_data_sync`: reject when no active
session exists; otherwise run the serializer and, when valid, persist one
reading (timestamp `now`, `overall_score` from `create`) with its
components. -/
def process_posture_data_sync (now : Int) (cs : List ComponentData) (st : ConsumerState) :
    ConsumerState × Bool × Option SubmitError :=
  if hasActiveSession st.sessions then
    if serializerIsValid cs then
      ({ st with readings :=
          st.readings ++ [{ timestamp := now, overall_score := createOverallScore cs,
                            components := cs }] },
        true, none)
    else (st, false, some .serializerErrors)
  else (st, false, some .mustHaveActiveSession)

/-- `DeviceConsumer.process_posture_data`: run the sync part and answer
with a success or error `posture_data_response` frame. -/
def process_posture_data (now : Int) (cs : List ComponentData) (st : ConsumerState) :
    ConsumerState × Frame :=
  match process_posture_data_sync now cs st with
  | (st, true, _) => (st, .postureDataResponse "success" none)
  | (st, false, err) => (st, .postureDataResponse "error" err)

/-- A successfully parsed inbound frame: its `type` discriminator and,
for `posture_data` frames, the `data.components` payload (empty when the
`data` key is absent, which the serializer rejects just like an empty
list). -/
structure InFrame where
  msgType : String
  components : List ComponentData
  deriving Repr, DecidableEq

/-- What `json.loads` makes of the inbound text: a parse failure or a
parsed frame. -/
inductive RecvText where
  | malformed
  | ok (f : InFrame)
  deriving Repr, DecidableEq

/-- `DeviceConsumer.receive`: parse failure answers the literal error
frame and touches nothing (the `json.loads` call precedes every state
change).  A `heartbeat` updates `last_seen`, runs the staleness check and,
only when it stopped a session, pushes fresh settings and a
`session_status` stop frame, then returns early.  `settings_request`
pushes a settings frame; `posture_data` is delegated; any other type falls
through.  Every parsed frame except `heartbeat` (which already did so)
ends with `update_last_seen`.  Returns the new state and the frames sent,
in order. -/
def receive (now : Int) (st : ConsumerState) (input : RecvText) :
    ConsumerState × List Frame :=
  match input with
  | .malformed => (st, [.errorFrame "Invalid JSON format"])
  | .ok f =>
      if f.msgType == "heartbeat" then
        let st := update_last_seen now st
        let (tbl, stopped) :=
          stop_session_if_no_data_received_for_too_long now (st.readings.map ReadingRec.timestamp)
            st.sessions
        let st := { st with sessions := tbl }
        if stopped then
          let (st, fr) := send_device_settings now st
          (st, [fr, .sessionStatus "stop" false])
        else (st, [])
      else if f.msgType == "settings_request" then
        let (st, fr) := send_device_settings now st
        (update_last_seen now st, [fr])
      else if f.msgType == "posture_data" then
        let (st, fr) := process_posture_data now f.components st
        (update_last_seen now st, [fr])
      else
        (update_last_seen now st, [])

/-! ## Connection authentication
    (`DeviceConsumer.connect` / `DeviceConsumer.get_device`) -/

/-- Hexadecimal digit as accepted by `int(s, 16)`. -/
def isHexChar (c : Char) : Bool :=
  c.isDigit || ('a' ≤ c && c ≤ 'f') || ('A' ≤ c && c ≤ 'F')

/-- Remove every (non-overlapping, left-to-right) occurrence of `pat`
from `s` — Python's `s.replace(pat, "")` — with explicit fuel for
structural recursion; `fuel = s.length` always suffices since every step
consumes at least one character. -/
def removeOccAux (pat : List Char) : Nat → List Char → List Char
  | 0, s => s
  | _ + 1, [] => []
  | fuel + 1, c :: rest =>
      if pat.isPrefixOf (c :: rest) && !pat.isEmpty then
        removeOccAux pat fuel ((c :: rest).drop pat.length)
      else c :: removeOccAux pat fuel rest

/-- `s.replace(pat, "")` on strings. -/
def removeSub (pat s : String) : String :=
  String.mk (removeOccAux pat.toList s.toList.length s.toList)

/-- `hex.strip` over the two brace characters, as Python's
`strip` with that char set: drop them from both ends. -/
def stripBraces (s : String) : String :=
  let isBrace := fun c => c == '\x7b' || c == '\x7d'
  String.mk (((s.toList.dropWhile isBrace).reverse.dropWhile isBrace).reverse)

/-- Lower-case a hexadecimal digit (the only characters this is applied
to), leaving everything else unchanged. -/
def hexToLower (c : Char) : Char :=
  if c == 'A' then 'a' else if c == 'B' then 'b' else if c == 'C' then 'c'
  else if c == 'D' then 'd' else if c == 'E' then 'e' else if c == 'F' then 'f'
  else c

/-- `uuid.UUID(device_id)` string normalisation: remove `urn:` and
`uuid:`, strip surrounding braces, drop hyphens.  Parsing succeeds when
exactly 32 hex digits remain; the canonical (lower-case) digits are the
device identity.  Raises `ValueError` (here: `none`) otherwise. -/
def pyUUIDParse (s : String) : Option String :=
  let hex := removeSub "-" (stripBraces (removeSub "uuid:" (removeSub "urn:" s)))
  if hex.toList.length == 32 && hex.toList.all isHexChar then
    some (String.mk (hex.toList.map hexToLower))
  else none

/-- A row of the device registry as authentication sees it: canonical id
and api key. -/
structure RegDevice where
  id : String
  api_key : String
  deriving Repr, DecidableEq

/-- `DeviceConsumer.get_device`: `uuid.UUID(device_id)` (a `ValueError`
is caught and yields `None`), then
`Device.objects.get(Q(id=device_uuid) & Q(api_key=api_key))` (a
`DoesNotExist` also yields `None`). -/
def get_device (registry : List RegDevice) (device_id : String) (api_key : Option String) :
    Option RegDevice :=
  match pyUUIDParse device_id with
  | none => none
  | some u => registry.find? (fun d => d.id == u && api_key == some d.api_key)

/-- Outcome of a connection attempt: closed with a code, or accepted with
the authenticated device. -/
inductive ConnectResult where
  | closed (code : Nat)
  | accepted (device : RegDevice)
  deriving Repr, DecidableEq

/-- `DeviceConsumer.connect`: authenticate via `get_device`; any failure
(malformed id or no matching id/key pair alike) closes with code 4003;
success accepts (and then pushes the initial settings snapshot via
`send_device_settings`). -/
def connectOutcome (registry : List RegDevice) (device_id : String)
    (api_key : Option String) : ConnectResult :=
  match get_device registry device_id api_key with
  | none => .closed 4003
  | some d => .accepted d

/-! ## Helper lemmas -/

/-- Updating the first active row with a deactivating update cannot
increase the number of active rows. -/
theorem activeCount_mapFirstActive_le (f : SessionRec → SessionRec)
    (hf : ∀ s, (f s).isActive = false) (tbl : SessionTable) :
    activeCount (mapFirstActive f tbl) ≤ activeCount tbl := by
  induction tbl with
  | nil => simp [mapFirstActive]
  | cons s rest ih =>
      by_cases hs : s.isActive
      · simp only [mapFirstActive, hs, if_true]
        unfold activeCount
        rw [List.filter_cons, List.filter_cons]
        simp only [hs, hf s, if_true, if_false, Bool.false_eq_true, List.length_cons]
        exact Nat.le_succ _
      · simp only [mapFirstActive, hs, if_false, Bool.false_eq_true]
        unfold activeCount at ih ⊢
        rw [List.filter_cons, List.filter_cons]
        simp only [hs, if_false, Bool.false_eq_true]
        exact ih

/-- If no active row is found, the active count is zero. -/
theorem activeCount_eq_zero_of_findActive_none (tbl : SessionTable)
    (h : findActive tbl = none) : activeCount tbl = 0 := by
  unfold findActive at h
  rw [List.find?_eq_none] at h
  unfold activeCount
  have : tbl.filter SessionRec.isActive = [] := by
    rw [List.filter_eq_nil_iff]
    intro a ha
    exact h a ha
  rw [this]
  rfl

/-- Every single session operation preserves the single-active-session
invariant. -/
theorem atMostOneActive_applyOp (op : SessionOp) (tbl : SessionTable)
    (h : atMostOneActive tbl) : atMostOneActive (applyOp op tbl) := by
  have hstop : ∀ (now : Int) (s : SessionRec),
      (SessionRec.isActive { s with end_time := some now, is_idle := false }) = false := by
    intro now s; rfl
  have hstop2 : ∀ (now : Int) (s : SessionRec),
      (SessionRec.isActive { s with end_time := some now }) = false := by
    intro now s; rfl
  unfold atMostOneActive at h ⊢
  cases op with
  | start now =>
      cases hfa : findActive tbl with
      | some s => simpa [applyOp, sessionStart, hfa] using h
      | none =>
          have h0 := activeCount_eq_zero_of_findActive_none tbl hfa
          have hfresh : (List.filter SessionRec.isActive
              [{ start_time := now, end_time := none, is_idle := false }]).length = 1 := rfl
          simp only [applyOp, sessionStart, hfa]
          unfold activeCount at h0 ⊢
          rw [List.filter_append, List.length_append, h0, hfresh]
  | stop now =>
      cases hfa : findActive tbl with
      | some s =>
          have := activeCount_mapFirstActive_le
            (fun s => { s with end_time := some now, is_idle := false }) (hstop now) tbl
          simp only [applyOp, sessionStop, hfa]
          omega
      | none => simpa [applyOp, sessionStop, hfa] using h
  | heartbeatStop now rts =>
      simp only [applyOp]
      unfold stop_session_if_no_data_received_for_too_long
      split
      · split
        · dsimp only
          split
          · exact le_trans (activeCount_mapFirstActive_le _ (hstop2 now) tbl) h
          · exact h
        · exact h
      · exact h
  | disconnectStop now =>
      cases hfa : findActive tbl with
      | some s =>
          have := activeCount_mapFirstActive_le
            (fun s => { s with end_time := some now }) (hstop2 now) tbl
          simp only [applyOp, stop_active_session, hfa]
          omega
      | none => simpa [applyOp, stop_active_session, hfa] using h

/-- C1: For every device, at most one Session with `end_time = null`
exists after any sequence of the session operations (REST start, REST
stop, heartbeat-triggered stop, disconnect-triggered stop): start creates
a new active session only when none exists, and every stop operation only
sets `end_time` on an existing active session, so the single-active-session
invariant is preserved by every operation and hence by every sequence. -/
theorem single_active_session_invariant (ops : List SessionOp) (tbl : SessionTable)
    (h : atMostOneActive tbl) : atMostOneActive (applyOps ops tbl) := by
  induction ops generalizing tbl with
  | nil => simpa [applyOps] using h
  | cons op ops ih =>
      have h1 := atMostOneActive_applyOp op tbl h
      simpa [applyOps, List.foldl_cons] using ih (applyOp op tbl) h1

/-- Witness for C1: a concrete operation sequence (start, stop, start,
heartbeat with a fresh reading, disconnect, start) run from the empty
table keeps the invariant. -/
theorem single_active_session_invariant_witness :
    atMostOneActive (applyOps
      [SessionOp.start 0, SessionOp.stop 10, SessionOp.start 20,
       SessionOp.heartbeatStop 4000 [3950], SessionOp.disconnectStop 5000,
       SessionOp.start 6000] []) :=
  single_active_session_invariant _ _ (by decide)

/-- C2: The staleness check's comparison is inverted.  With an active
session started at 0 and one reading at t = 50000, a heartbeat at
t = 100000 (the reading is 50000 s old, far beyond the 3600 s threshold)
leaves the session active and returns `false`; with a reading at
t = 99000 (only 1000 s old, well within the threshold) it ends the
session and returns `true` — the exact opposite of the claimed (and
intended, per the function's own name and log message) behaviour. -/
theorem staleness_check_comparison_inverted :
    stop_session_if_no_data_received_for_too_long 100000 [50000]
        [{ start_time := 0, end_time := none, is_idle := false }] =
      ([{ start_time := 0, end_time := none, is_idle := false }], false) ∧
    stop_session_if_no_data_received_for_too_long 100000 [99000]
        [{ start_time := 0, end_time := none, is_idle := false }] =
      ([{ start_time := 0, end_time := some 100000, is_idle := false }], true) := by
  constructor <;> rfl

/-- C10: A device with an active session but no posture readings at all
is never auto-ended by the heartbeat staleness check: with an empty
reading list the check returns `false` and leaves every session table
unchanged, no matter the current time. -/
theorem no_readings_never_autostops (now : Int) (tbl : SessionTable) :
    stop_session_if_no_data_received_for_too_long now [] tbl = (tbl, false) := by
  unfold stop_session_if_no_data_received_for_too_long
  cases hfa : findActive tbl <;> simp [lastReadingTimestamp]

/-- C9: An inbound text frame that is not valid JSON is answered with
exactly the frame `{"type": "error", "error": "Invalid JSON format"}`;
the connection is not closed (`receive` has no close path) and the state
is returned untouched — no session change, no reading, and no `last_seen`
update, since `json.loads` runs before any state change. -/
theorem malformed_json_keeps_state (now : Int) (st : ConsumerState) :
    receive now st .malformed = (st, [.errorFrame "Invalid JSON format"]) := rfl

/-- C8 counterexample: a device with an active, idle session that sends
`exit_idle_mode` gets no frame back at all (in particular no
`exit_idle_mode_response`) and its session's idle flag stays set — the
handler has no `exit_idle_mode` branch. -/
theorem exit_idle_mode_counterexample :
    (receive 100 { device := { sensitivity := 50, vibration_intensity := 50,
                               audio_intensity := 50, last_seen := none },
                   sessions := [{ start_time := 0, end_time := none, is_idle := true }],
                   readings := [] }
        (.ok { msgType := "exit_idle_mode", components := [] })).2 = [] ∧
    (receive 100 { device := { sensitivity := 50, vibration_intensity := 50,
                               audio_intensity := 50, last_seen := none },
                   sessions := [{ start_time := 0, end_time := none, is_idle := true }],
                   readings := [] }
        (.ok { msgType := "exit_idle_mode", components := [] })).1.sessions =
      [{ start_time := 0, end_time := none, is_idle := true }] := by
  constructor <;> rfl

/-- C8 amended: an `exit_idle_mode` frame is treated as an unrecognized
message type: the handler sends no response frame, clears no idle flag
and changes no session; its only effect is the generic `last_seen`
update every parsed frame gets. -/
theorem exit_idle_mode_unhandled (now : Int) (st : ConsumerState)
    (cs : List ComponentData) :
    receive now st (.ok { msgType := "exit_idle_mode", components := cs }) =
        (update_last_seen now st, []) ∧
    (update_last_seen now st).sessions = st.sessions := by
  constructor <;> rfl

/-- C5: A `posture_data` frame arriving while the device has no session
with `end_time = null` is answered with a `posture_data_response` of
status "error" (carrying the no-active-session message), and neither the
readings nor the sessions change — only the generic `last_seen` touch
happens. -/
theorem posture_data_no_active_session (now : Int) (st : ConsumerState)
    (cs : List ComponentData) (h : hasActiveSession st.sessions = false) :
    receive now st (.ok { msgType := "posture_data", components := cs }) =
        (update_last_seen now st,
         [.postureDataResponse "error" (some .mustHaveActiveSession)]) ∧
    (update_last_seen now st).readings = st.readings ∧
    (update_last_seen now st).sessions = st.sessions := by
  refine ⟨?_, rfl, rfl⟩
  unfold receive
  simp only [show ("posture_data" == "heartbeat") = false from rfl,
    show ("posture_data" == "settings_request") = false from rfl,
    show ("posture_data" == "posture_data") = true from rfl,
    Bool.false_eq_true, if_false, if_true]
  unfold process_posture_data process_posture_data_sync
  rw [h]
  rfl

/-- Witness for C5: a concrete state whose only session is ended. -/
theorem posture_data_no_active_session_witness :
    receive 7 { device := { sensitivity := 50, vibration_intensity := 50,
                            audio_intensity := 50, last_seen := none },
                sessions := [{ start_time := 0, end_time := some 5, is_idle := false }],
                readings := [] }
        (.ok { msgType := "posture_data",
               components := [{ component_type := "neck", is_correct := true,
                                score := 10, correction := none }] }) =
      (update_last_seen 7
        { device := { sensitivity := 50, vibration_intensity := 50,
                      audio_intensity := 50, last_seen := none },
          sessions := [{ start_time := 0, end_time := some 5, is_idle := false }],
          readings := [] },
       [.postureDataResponse "error" (some .mustHaveActiveSession)]) :=
  (posture_data_no_active_session 7 _ _ (by decide)).1

/-- C6 counterexample: the settings frame pushed for a concrete device
with no sessions carries exactly the four keys written in
`get_device_settings` — `is_idle` is not among them, contradicting the
claim that every settings frame carries all five fields. -/
theorem settings_frame_no_is_idle_counterexample :
    (send_device_settings 0
        { device := { sensitivity := 50, vibration_intensity := 50,
                      audio_intensity := 50, last_seen := none },
          sessions := [], readings := [] }).2 =
      .settings [("sensitivity", .int 50), ("vibration_intensity", .int 50),
                 ("audio_intensity", .int 50), ("has_active_session", .bool false)] ∧
    ¬ ("is_idle" ∈ ["sensitivity", "vibration_intensity", "audio_intensity",
                    "has_active_session"]) := by
  exact ⟨rfl, by decide⟩

/-- C6 amended: every settings frame the handler pushes (the initial
snapshot after accept, the `settings_request` answer, and the
settings-changed event all build it from `get_device_settings`) is a
`settings` frame whose data holds exactly the four fields `sensitivity`,
`vibration_intensity`, `audio_intensity` and `has_active_session`;
`is_idle` is not included. -/
theorem settings_frame_fields (now : Int) (st : ConsumerState) :
    (send_device_settings now st).2 =
      .settings [("sensitivity", .int st.device.sensitivity),
                 ("vibration_intensity", .int st.device.vibration_intensity),
                 ("audio_intensity", .int st.device.audio_intensity),
                 ("has_active_session", .bool (hasActiveSession st.sessions))] := rfl

/-- C7 counterexample: with a registry holding one device, a malformed
device id ("not-a-uuid", which `uuid.UUID` rejects) and a well-formed but
unknown id (the nil UUID) both close the connection with the same code
4003 — the two authentication-failure causes are not distinguishable by
close code. -/
theorem close_codes_not_distinct_counterexample :
    pyUUIDParse "not-a-uuid" = none ∧
    pyUUIDParse "00000000-0000-0000-0000-000000000000" =
      some "00000000000000000000000000000000" ∧
    connectOutcome [{ id := "11111111111111111111111111111111", api_key := "k" }]
        "not-a-uuid" (some "k") = .closed 4003 ∧
    connectOutcome [{ id := "11111111111111111111111111111111", api_key := "k" }]
        "00000000-0000-0000-0000-000000000000" (some "k") = .closed 4003 := by
  refine ⟨?_, ?_, ?_, ?_⟩ <;> rfl

/-- C7 amended: every authentication failure — malformed id (a
`ValueError` from `uuid.UUID`) and well-formed id with no matching
id/key pair alike — closes the connection with the single code 4003;
there is no distinct close code per cause. -/
theorem auth_failure_single_close_code (registry : List RegDevice)
    (device_id : String) (api_key : Option String)
    (h : get_device registry device_id api_key = none) :
    connectOutcome registry device_id api_key = .closed 4003 := by
  unfold connectOutcome
  rw [h]

/-- Witness for the amended C7: the empty registry rejects a malformed
id with close code 4003. -/
theorem auth_failure_single_close_code_witness :
    connectOutcome [] "not-a-uuid" none = .closed 4003 :=
  auth_failure_single_close_code [] "not-a-uuid" none (by rfl)

/-- Bool-level `contains` agrees with membership for strings. -/
theorem contains_eq_true_iff {l : List String} {a : String} :
    l.contains a = true ↔ a ∈ l :=
  List.elem_iff

/-- The duplicate check of `validate_components`
(`len(types) == len(set(types))`) certifies `Nodup`. -/
theorem nodup_of_dedup_length {l : List String} (h : l.dedup.length = l.length) :
    l.Nodup := by
  have he : l.dedup = l := (List.dedup_sublist l).eq_of_length h
  rw [← he]
  exact List.nodup_dedup l

/-- Characterisation of `serializer.is_valid()`: a submission passes
exactly when its component types are exactly the set
{neck, torso, shoulders} (membership both ways), carry no duplicate, and
every score is non-negative. -/
theorem serializerIsValid_iff (cs : List ComponentData) :
    serializerIsValid cs = true ↔
      ((∀ t, t ∈ cs.map ComponentData.component_type ↔ t ∈ componentTypeChoices) ∧
       (cs.map ComponentData.component_type).Nodup ∧
       ∀ c ∈ cs, 0 ≤ c.score) := by
  constructor
  · intro h
    simp only [serializerIsValid, validate_components, componentFieldValid,
      Bool.and_eq_true, List.all_eq_true, decide_eq_true_eq, beq_iff_eq,
      Bool.not_eq_true', List.isEmpty_eq_false] at h
    obtain ⟨hfield, ⟨_, hlen⟩, hcont⟩ := h
    refine ⟨fun t => ⟨fun ht => ?_, fun ht => ?_⟩,
      nodup_of_dedup_length hlen, fun c hc => (hfield c hc).2⟩
    · obtain ⟨c, hc, rfl⟩ := List.mem_map.mp ht
      exact contains_eq_true_iff.mp (hfield c hc).1
    · exact contains_eq_true_iff.mp (hcont t ht)
  · rintro ⟨hmem, hnd, hsc⟩
    have hne : cs ≠ [] := by
      intro hnil
      have : ("neck" : String) ∈ cs.map ComponentData.component_type :=
        (hmem "neck").mpr (by decide)
      rw [hnil] at this
      simp at this
    simp only [serializerIsValid, validate_components, componentFieldValid,
      Bool.and_eq_true, List.all_eq_true, decide_eq_true_eq, beq_iff_eq,
      Bool.not_eq_true', List.isEmpty_eq_false]
    refine ⟨fun c hc => ⟨?_, hsc c hc⟩, ⟨hne, ?_⟩, fun t ht => ?_⟩
    · exact contains_eq_true_iff.mpr ((hmem c.component_type).mp
        (List.mem_map.mpr ⟨c, hc, rfl⟩))
    · rw [List.dedup_eq_self.mpr hnd]
    · exact contains_eq_true_iff.mpr ((hmem t).mpr ht)

/-- C3: On every accepted submission the persisted reading's
`overall_score` equals `floor((neck + torso + shoulders) / 3)`:
validation forces exactly the three distinct component types, so the
serializer's `total_score // component_count` is that floor of the
mean. -/
theorem overall_score_floor_mean (cs : List ComponentData)
    (h : serializerIsValid cs = true) :
    cs.length = 3 ∧
    createOverallScore cs =
      Int.fdiv (scoreOf cs "neck" + scoreOf cs "torso" + scoreOf cs "shoulders") 3 := by
  obtain ⟨hmem, hnd, -⟩ := (serializerIsValid_iff cs).mp h
  have hchoices : componentTypeChoices.Nodup := by decide
  have hsub1 : cs.map ComponentData.component_type ⊆ componentTypeChoices :=
    fun t ht => (hmem t).mp ht
  have hsub2 : componentTypeChoices ⊆ cs.map ComponentData.component_type :=
    fun t ht => (hmem t).mpr ht
  have hlen : (cs.map ComponentData.component_type).length = 3 :=
    Nat.le_antisymm (hnd.subperm hsub1).length_le (hchoices.subperm hsub2).length_le
  have hcs3 : cs.length = 3 := by simpa using hlen
  obtain ⟨a, b, c, rfl⟩ := List.length_eq_three.mp hcs3
  have ha : a.component_type ∈ componentTypeChoices := hsub1 (by simp)
  have hb : b.component_type ∈ componentTypeChoices := hsub1 (by simp)
  have hc : c.component_type ∈ componentTypeChoices := hsub1 (by simp)
  simp only [componentTypeChoices, List.mem_cons, List.mem_singleton,
    List.not_mem_nil, or_false] at ha hb hc
  simp only [List.map_cons, List.map_nil, List.nodup_cons, List.mem_cons,
    List.mem_singleton, List.not_mem_nil, not_or, List.nodup_nil, and_true] at hnd
  obtain ⟨⟨hab, hac⟩, hbc, -⟩ := hnd
  refine ⟨rfl, ?_⟩
  rcases ha with ha | ha | ha <;> rcases hb with hb | hb | hb <;>
    rcases hc with hc | hc | hc <;>
    simp_all [scoreOf, createOverallScore, List.find?] <;>
    (congr 1; ring)

/-- Witness for C3: the submission (neck 10, torso 20, shoulders 31) is
valid and yields overall score `(10 + 20 + 31) // 3`. -/
theorem overall_score_floor_mean_witness :
    ([{ component_type := "neck", is_correct := true, score := 10, correction := none },
      { component_type := "torso", is_correct := true, score := 20, correction := none },
      { component_type := "shoulders", is_correct := false, score := 31, correction := none }] :
        List ComponentData).length = 3 ∧
    createOverallScore
      [{ component_type := "neck", is_correct := true, score := 10, correction := none },
       { component_type := "torso", is_correct := true, score := 20, correction := none },
       { component_type := "shoulders", is_correct := false, score := 31, correction := none }] =
      Int.fdiv
        (scoreOf
            [{ component_type := "neck", is_correct := true, score := 10, correction := none },
             { component_type := "torso", is_correct := true, score := 20, correction := none },
             { component_type := "shoulders", is_correct := false, score := 31, correction := none }]
            "neck" +
          scoreOf
            [{ component_type := "neck", is_correct := true, score := 10, correction := none },
             { component_type := "torso", is_correct := true, score := 20, correction := none },
             { component_type := "shoulders", is_correct := false, score := 31, correction := none }]
            "torso" +
          scoreOf
            [{ component_type := "neck", is_correct := true, score := 10, correction := none },
             { component_type := "torso", is_correct := true, score := 20, correction := none },
             { component_type := "shoulders", is_correct := false, score := 31, correction := none }]
            "shoulders") 3 :=
  overall_score_floor_mean _ (by decide)

/-- C4: With an active session, a `posture_data` submission is accepted
and its reading (with components) persisted exactly when the submitted
component types are exactly {neck, torso, shoulders} with no duplicates
and every score is non-negative; otherwise it is rejected and the store
is unchanged. -/
theorem posture_submission_acceptance (now : Int) (cs : List ComponentData)
    (st : ConsumerState) (h : hasActiveSession st.sessions = true) :
    (((process_posture_data_sync now cs st).2.1 = true ∧
      (process_posture_data_sync now cs st).1.readings =
        st.readings ++ [{ timestamp := now, overall_score := createOverallScore cs,
                          components := cs }])
      ↔ ((∀ t, t ∈ cs.map ComponentData.component_type ↔ t ∈ componentTypeChoices) ∧
         (cs.map ComponentData.component_type).Nodup ∧
         ∀ c ∈ cs, 0 ≤ c.score)) ∧
    ((process_posture_data_sync now cs st).2.1 = false →
      (process_posture_data_sync now cs st).1 = st) := by
  have hpos : serializerIsValid cs = true →
      process_posture_data_sync now cs st =
        ({ st with readings :=
            st.readings ++ [{ timestamp := now, overall_score := createOverallScore cs,
                              components := cs }] },
          true, none) := by
    intro hv
    unfold process_posture_data_sync
    rw [h, hv]
    rfl
  have hneg : serializerIsValid cs = false →
      process_posture_data_sync now cs st = (st, false, some .serializerErrors) := by
    intro hv
    unfold process_posture_data_sync
    rw [h, hv]
    rfl
  cases hv : serializerIsValid cs with
  | true =>
      rw [hpos hv]
      refine ⟨⟨fun _ => (serializerIsValid_iff cs).mp hv, fun _ => ⟨rfl, rfl⟩⟩,
        fun hfalse => ?_⟩
      simp at hfalse
  | false =>
      rw [hneg hv]
      refine ⟨⟨fun hacc => ?_, fun hrhs => ?_⟩, fun _ => rfl⟩
      · have := hacc.1
        simp at this
      · have := (serializerIsValid_iff cs).mpr hrhs
        rw [hv] at this
        simp at this

/-- Witness for C4: with one active session, the valid submission
(neck 10, torso 20, shoulders 31) is accepted. -/
theorem posture_submission_acceptance_witness :
    (process_posture_data_sync 5
        [{ component_type := "neck", is_correct := true, score := 10, correction := none },
         { component_type := "torso", is_correct := true, score := 20, correction := none },
         { component_type := "shoulders", is_correct := false, score := 31, correction := none }]
        { device := { sensitivity := 50, vibration_intensity := 50,
                      audio_intensity := 50, last_seen := none },
          sessions := [{ start_time := 0, end_time := none, is_idle := false }],
          readings := [] }).2.1 = true :=
  ((posture_submission_acceptance 5 _ _ (by decide)).1.mpr
    ⟨by intro t; simp [componentTypeChoices], by decide, by decide⟩).1

end BuddyBack
